import Mathlib

/-!
Shallow embedding of the monitoring engine of `aave-cap-alerts`
(`internal/monitor/monitor.go`), together with proofs about its
trigger evaluator, per-poll watcher algorithm and service construction.

Conventions of the embedding:
* `big.Int` values become `Int`; a possibly-nil `*big.Int` becomes `Option Int`.
* `uint8` decimals become `Nat` (only carried around, never computed with).
* Trigger reason strings built with `fmt.Sprintf` are modelled as an inductive
  type carrying the same data the formatted string interpolates; the claims
  only distinguish the three reason kinds and their payloads.
* The chain client calls (`client.Decimals`, `client.TotalSupply`) and the
  notifier calls (`notifier.Notify`) are external collaborators: a poll is
  modelled as a pure function of the watcher state and the results those
  calls would return.  `time.ParseDuration` (Go standard library) is likewise
  treated as a parameter of `newService`.
* The `ObservedAt: time.Now()` field of the event and all `log.Printf` calls
  are side effects with no bearing on the claims and are omitted.
-/

/-- The three kinds of trigger reason built in `evaluateTriggers`
(`monitor.go:205-228`), with the data their message strings interpolate. -/
inductive TriggerReason where
  | increase (oldSupply newSupply : Int)
  | decrease (oldSupply newSupply : Int)
  | targetReached (target : Int)
deriving DecidableEq, Repr

/-- A reason produced by the directional `switch` block of `evaluateTriggers`. -/
def TriggerReason.isDirectional : TriggerReason → Bool
  | .increase _ _ => true
  | .decrease _ _ => true
  | .targetReached _ => false

/-- A reason produced by the target-crossing block of `evaluateTriggers`. -/
def TriggerReason.isTarget : TriggerReason → Bool
  | .targetReached _ => true
  | _ => false

/-- The mutable per-asset state `assetWatcher` (`monitor.go:109-119`).
`address` keeps the configured hex string (the byte decoding done by
`common.HexToAddress` plays no role in any claim). -/
structure AssetWatcher where
  name : String
  address : String
  targetTotalSupply : Option Int
  notifyOnIncrease : Bool
  notifyOnDecrease : Bool
  pollInterval : Int
  decimalsLoaded : Bool := false
  decimals : Nat := 0
  lastTotalSupply : Option Int := none
deriving DecidableEq, Repr

/-- Model of `increasedByMoreThanOnePercent` (`monitor.go:237-245`): false when the old
supply is nil or non-positive (`oldSupply.Sign() <= 0`), otherwise compares
`newSupply*100` against `oldSupply*110` strictly. -/
def increasedByMoreThanOnePercent (oldSupply : Option Int) (newSupply : Int) : Bool :=
  match oldSupply with
  | none => false
  | some old =>
    if old ≤ 0 then false
    else decide (newSupply * 100 > old * 110)

/-- The directional `switch newSupply.Cmp(a.lastTotalSupply)` block of
`evaluateTriggers`: at most one of an increase or a decrease reason. -/
def directionalReasons (a : AssetWatcher) (newSupply : Int) : List TriggerReason :=
  match a.lastTotalSupply with
  | none => []
  | some last =>
    if newSupply > last then
      if a.notifyOnIncrease && increasedByMoreThanOnePercent (some last) newSupply then
        [.increase last newSupply]
      else []
    else if newSupply < last then
      if a.notifyOnDecrease then [.decrease last newSupply] else []
    else []

/-- The target-crossing block of `evaluateTriggers`: fires when both the
target and the last supply are set, the last supply is strictly below the
target and the new supply is at or above it. -/
def targetReasons (a : AssetWatcher) (newSupply : Int) : List TriggerReason :=
  match a.targetTotalSupply, a.lastTotalSupply with
  | some target, some last =>
    if last < target ∧ target ≤ newSupply then [.targetReached target] else []
  | _, _ => []

/-- Model of `evaluateTriggers` (`monitor.go:205-228`): the directional block runs
first and appends at most one reason, then the target block appends at most
one reason. -/
def evaluateTriggers (a : AssetWatcher) (newSupply : Int) : List TriggerReason :=
  directionalReasons a newSupply ++ targetReasons a newSupply

/-- Model of `notify.SupplyChangeEvent` as built in `check` (`monitor.go:179-189`),
minus the `ObservedAt` timestamp. -/
structure SupplyChangeEvent where
  assetName : String
  assetAddress : String
  oldTotalSupply : Int
  newTotalSupply : Int
  targetTotalSupply : Option Int
  decimals : Nat
  triggerReasons : List TriggerReason
deriving DecidableEq, Repr

/-- The observable outcome of one `check` call (`monitor.go:144-203`):
the watcher state after the call, whether the call returned an error, which
remote fetches were attempted, the event dispatched (if any) and the result
of each notifier's `Notify` call, in configured order. -/
structure CheckOutcome where
  watcher : AssetWatcher
  errored : Bool
  decimalsFetchAttempted : Bool
  supplyFetchAttempted : Bool
  event : Option SupplyChangeEvent
  deliveries : List Bool
deriving Repr

/-- The dispatch loop of `check` (`monitor.go:194-199`): every notifier is
invoked exactly once, in order; a failure is only logged and never stops the
loop. -/
def notifyAll (notifiers : List (SupplyChangeEvent → Bool)) (event : SupplyChangeEvent) :
    List Bool :=
  notifiers.map (fun n => n event)

/-- The part of `check` after the decimals step (`monitor.go:155-202`):
fetch the supply, establish the baseline on first observation, fast-path on
equality, evaluate triggers, dispatch, and advance the baseline.
`a` already carries any decimals caching done by the decimals step, so a
failed supply fetch keeps that caching (as the Go mutation does). -/
def checkSupplyPhase (a : AssetWatcher) (dAttempted : Bool) (supplyResult : Option Int)
    (notifiers : List (SupplyChangeEvent → Bool)) : CheckOutcome :=
  match supplyResult with
  | none =>
    { watcher := a, errored := true, decimalsFetchAttempted := dAttempted,
      supplyFetchAttempted := true, event := none, deliveries := [] }
  | some totalSupply =>
    match a.lastTotalSupply with
    | none =>
      { watcher := { a with lastTotalSupply := some totalSupply }, errored := false,
        decimalsFetchAttempted := dAttempted, supplyFetchAttempted := true,
        event := none, deliveries := [] }
    | some last =>
      if totalSupply = last then
        { watcher := a, errored := false, decimalsFetchAttempted := dAttempted,
          supplyFetchAttempted := true, event := none, deliveries := [] }
      else
        let reasons := evaluateTriggers a totalSupply
        if reasons = [] then
          { watcher := { a with lastTotalSupply := some totalSupply }, errored := false,
            decimalsFetchAttempted := dAttempted, supplyFetchAttempted := true,
            event := none, deliveries := [] }
        else
          let event : SupplyChangeEvent :=
            { assetName := a.name, assetAddress := a.address,
              oldTotalSupply := last, newTotalSupply := totalSupply,
              targetTotalSupply := a.targetTotalSupply, decimals := a.decimals,
              triggerReasons := reasons }
          { watcher := { a with lastTotalSupply := some totalSupply }, errored := false,
            decimalsFetchAttempted := dAttempted, supplyFetchAttempted := true,
            event := some event, deliveries := notifyAll notifiers event }

/-- One poll: `check` (`monitor.go:144-203`).  `decimalsResult` and
`supplyResult` stand for what `client.Decimals` / `client.TotalSupply` would
return (`none` = error); a lazily-fetched decimals failure aborts before the
supply fetch. -/
def check (a : AssetWatcher) (decimalsResult : Option Nat) (supplyResult : Option Int)
    (notifiers : List (SupplyChangeEvent → Bool)) : CheckOutcome :=
  if a.decimalsLoaded then
    checkSupplyPhase a false supplyResult notifiers
  else
    match decimalsResult with
    | none =>
      { watcher := a, errored := true, decimalsFetchAttempted := true,
        supplyFetchAttempted := false, event := none, deliveries := [] }
    | some d =>
      checkSupplyPhase { a with decimals := d, decimalsLoaded := true } true
        supplyResult notifiers

/-- Runs `check` once per supply observation (every fetch succeeding,
decimals always `d`), collecting the dispatched events in order.  This is the
successful-poll trace of the `run` loop (`monitor.go:121-142`). -/
def runPolls (a : AssetWatcher) (d : Nat) (notifiers : List (SupplyChangeEvent → Bool)) :
    List Int → AssetWatcher × List SupplyChangeEvent
  | [] => (a, [])
  | s :: rest =>
    let out := check a (some d) (some s) notifiers
    let tail := runPolls out.watcher d notifiers rest
    (tail.1, out.event.toList ++ tail.2)

/-- Model of `has0xPrefix` from go-ethereum's `common` package: the string starts with
`0x` or `0X`. -/
def has0x : List Char → Bool
  | '0' :: c :: _ => c = 'x' || c = 'X'
  | _ => false

/-- Model of `isHexCharacter` from go-ethereum's `common` package. -/
def isHexCharacter (c : Char) : Bool :=
  ('0' ≤ c && c ≤ '9') || ('a' ≤ c && c ≤ 'f') || ('A' ≤ c && c ≤ 'F')

/-- Model of `isHex` from go-ethereum's `common` package: even length, all hex. -/
def isHex (s : List Char) : Bool :=
  s.length % 2 = 0 && s.all isHexCharacter

/-- Model of `common.IsHexAddress`: after stripping an optional `0x`/`0X`, exactly 40
hex characters. -/
def isHexAddress (s : String) : Bool :=
  let cs := s.data
  let cs := if has0x cs then cs.drop 2 else cs
  cs.length = 40 && isHex cs

/-- Decimal digit accumulator used by `setStringBase10`. -/
def decNatOfDigits : List Char → Nat → Option Nat
  | [], acc => some acc
  | c :: rest, acc =>
    if '0' ≤ c && c ≤ '9' then decNatOfDigits rest (acc * 10 + (c.toNat - '0'.toNat))
    else none

/-- Model of `new(big.Int).SetString(v, 10)`: an optional sign followed by a nonempty
run of decimal digits consuming the whole string (base 10 admits no
underscores and no whitespace). -/
def setStringBase10 (s : String) : Option Int :=
  match s.data with
  | [] => none
  | '+' :: rest =>
    if rest = [] then none else (decNatOfDigits rest 0).map Int.ofNat
  | '-' :: rest =>
    if rest = [] then none else (decNatOfDigits rest 0).map (fun n => -(Int.ofNat n))
  | cs => (decNatOfDigits cs 0).map Int.ofNat

/-- Model of `parseBigInt` (`monitor.go:94-103`): empty means no target and no error;
otherwise a failed `SetString` is an error. -/
def parseBigInt (v : String) : Except String (Option Int) :=
  if v = "" then .ok none
  else
    match setStringBase10 v with
    | none => .error "invalid integer"
    | some value => .ok (some value)

/-- Model of `valueOrDefault` (`monitor.go:105-108`). -/
def valueOrDefault (v : Option Bool) (fallback : Bool) : Bool :=
  v.getD fallback

/-- Model of `config.AssetConfig` (`config.go`): the per-asset YAML entry. -/
structure AssetConfig where
  name : String
  address : String
  targetCapTokens : String
  notifyOnIncrease : Option Bool
  notifyOnDecrease : Option Bool
  pollInterval : String
deriving DecidableEq, Repr

/-- The per-asset body of the `NewService` loop (`monitor.go:32-71`):
validate the address, parse the target, apply flag defaults, and apply the
per-asset poll-interval override.  `pd` stands for `time.ParseDuration`
(Go standard library, external to this repository): `none` is a parse error,
`some v` a duration of `v` nanoseconds. -/
def buildWatcher (pd : String → Option Int) (defaultPoll : Int) (assetCfg : AssetConfig) :
    Except String AssetWatcher :=
  let name := if assetCfg.name = "" then assetCfg.address else assetCfg.name
  if assetCfg.address = "" then .error (name ++ ": address must be provided")
  else if !isHexAddress assetCfg.address then
    .error (name ++ ": address is not a valid hex string")
  else
    match parseBigInt assetCfg.targetCapTokens with
    | .error e => .error (name ++ ": target threshold: " ++ e)
    | .ok target =>
      let base : AssetWatcher :=
        { name := name, address := assetCfg.address, targetTotalSupply := target,
          notifyOnIncrease := valueOrDefault assetCfg.notifyOnIncrease true,
          notifyOnDecrease := valueOrDefault assetCfg.notifyOnDecrease false,
          pollInterval := defaultPoll }
      if assetCfg.pollInterval = "" then .ok base
      else
        match pd assetCfg.pollInterval with
        | none => .error (name ++ ": parse poll interval")
        | some customPoll =>
          if customPoll ≤ 0 then .error (name ++ ": poll interval must be positive")
          else .ok { base with pollInterval := customPoll }

/-- The watcher-building loop of `NewService`: the first failing asset aborts
the whole construction (no partial list is ever returned). -/
def buildWatchers (pd : String → Option Int) (defaultPoll : Int) :
    List AssetConfig → Except String (List AssetWatcher)
  | [] => .ok []
  | c :: rest =>
    match buildWatcher pd defaultPoll c with
    | .error e => .error e
    | .ok w =>
      match buildWatchers pd defaultPoll rest with
      | .error e => .error e
      | .ok ws => .ok (w :: ws)

/-- Model of `NewService` (`monitor.go:26-78`), reduced to the data the claims are
about: the validated watcher list (client and notifiers are threaded through
unchanged by the Go code). -/
def newService (pd : String → Option Int) (assets : List AssetConfig) (defaultPoll : Int) :
    Except String (List AssetWatcher) :=
  if defaultPoll ≤ 0 then .error "default poll interval must be positive"
  else buildWatchers pd defaultPoll assets

/-! Concrete instances used to evaluate the definitions on explicit inputs. -/

/-- A syntactically valid hex address (`0x` + 40 hex characters). -/
def addr40a : String := "0xaaaaaaaaaaaaaaaaaaaaaaaaaaaaaaaaaaaaaaaa"

/-- A stand-in for `time.ParseDuration` that fails on every input; the
configurations below never exercise it. -/
def pdNone : String → Option Int := fun _ => none

/-- A tracking watcher whose recorded baseline is zero supply. -/
def wZeroBase : AssetWatcher :=
  { name := "zero", address := addr40a, targetTotalSupply := none,
    notifyOnIncrease := true, notifyOnDecrease := false, pollInterval := 60,
    decimalsLoaded := true, decimals := 18, lastTotalSupply := some 0 }

/-- A fresh watcher (no baseline) with target 100 and default flags, for the
crossing scenario over observations `[90, 95, 105, 110]`. -/
def wCross : AssetWatcher :=
  { name := "cross", address := addr40a, targetTotalSupply := some 100,
    notifyOnIncrease := true, notifyOnDecrease := false, pollInterval := 60,
    decimalsLoaded := true, decimals := 18 }

/-- A tracking watcher with baseline 500, both directional flags on and
target 1000. -/
def wTracking : AssetWatcher :=
  { name := "trk", address := addr40a, targetTotalSupply := some 1000,
    notifyOnIncrease := true, notifyOnDecrease := true, pollInterval := 60,
    decimalsLoaded := true, decimals := 18, lastTotalSupply := some 500 }

/-- A watcher that has not yet loaded decimals and has no baseline. -/
def wFresh : AssetWatcher :=
  { name := "new", address := addr40a, targetTotalSupply := none,
    notifyOnIncrease := true, notifyOnDecrease := false, pollInterval := 60 }

/-- A notifier whose `Notify` always fails. -/
def failingNotifier : SupplyChangeEvent → Bool := fun _ => false

/-- A notifier whose `Notify` always succeeds. -/
def okNotifier : SupplyChangeEvent → Bool := fun _ => true

/-- An asset entry whose target string denotes a negative integer. -/
def cfgNegTarget : AssetConfig :=
  { name := "neg", address := addr40a, targetCapTokens := "-5",
    notifyOnIncrease := none, notifyOnDecrease := none, pollInterval := "" }

/-- The watcher `newService` builds from `cfgNegTarget` with default poll 1. -/
def wNegTarget : AssetWatcher :=
  { name := "neg", address := addr40a, targetTotalSupply := some (-5),
    notifyOnIncrease := true, notifyOnDecrease := false, pollInterval := 1 }

/-- An asset entry with an empty address. -/
def cfgEmptyAddr : AssetConfig :=
  { name := "bad", address := "", targetCapTokens := "",
    notifyOnIncrease := none, notifyOnDecrease := none, pollInterval := "" }

/-- One of the per-asset validation failures `NewService` rejects: empty
address, invalid address syntax, unparseable or non-positive per-asset poll
interval, or a target string that does not parse as an integer. -/
def invalidAssetEntry (pd : String → Option Int) (c : AssetConfig) : Prop :=
  c.address = "" ∨ isHexAddress c.address = false ∨
    (c.pollInterval ≠ "" ∧
      (pd c.pollInterval = none ∨ ∃ v, pd c.pollInterval = some v ∧ v ≤ 0)) ∨
    (c.targetCapTokens ≠ "" ∧ setStringBase10 c.targetCapTokens = none)

/-! Helper lemmas about the two blocks of `evaluateTriggers`. -/

theorem mem_directionalReasons_isDirectional (a : AssetWatcher) (c : Int) (r : TriggerReason)
    (h : r ∈ directionalReasons a c) : r.isDirectional = true := by
  rcases hl : a.lastTotalSupply with _ | last <;> simp [directionalReasons, hl] at h
  split_ifs at h <;> simp_all [TriggerReason.isDirectional]

theorem mem_targetReasons_isTarget (a : AssetWatcher) (c : Int) (r : TriggerReason)
    (h : r ∈ targetReasons a c) : r.isTarget = true := by
  rcases ht : a.targetTotalSupply with _ | t <;> rcases hl : a.lastTotalSupply with _ | last <;>
    simp [targetReasons, ht, hl] at h
  obtain ⟨-, rfl⟩ := h
  rfl

theorem directionalReasons_nil_or_singleton (a : AssetWatcher) (c : Int) :
    directionalReasons a c = [] ∨ ∃ x, directionalReasons a c = [x] := by
  rcases hl : a.lastTotalSupply with _ | last <;> simp [directionalReasons, hl]
  split_ifs <;> simp

theorem targetReasons_nil_or_singleton (a : AssetWatcher) (c : Int) :
    targetReasons a c = [] ∨ ∃ x, targetReasons a c = [x] := by
  unfold targetReasons
  rcases a.targetTotalSupply with _ | t
  · left; rfl
  · rcases a.lastTotalSupply with _ | last
    · left; rfl
    · dsimp only
      split_ifs <;> simp

theorem targetReasons_some_eq (a : AssetWatcher) (c target last : Int)
    (ht : a.targetTotalSupply = some target) (hl : a.lastTotalSupply = some last) :
    targetReasons a c =
      if last < target ∧ target ≤ c then [TriggerReason.targetReached target] else [] := by
  simp [targetReasons, ht, hl]

/-- Claim C1 counterexample: with baseline 0, `notifyOnIncrease` on and new
supply 1, the relation `current*100 > previous*110` holds yet no increase
reason is produced, because `increasedByMoreThanOnePercent` rejects a
non-positive previous supply. -/
theorem increase_trigger_zero_baseline_cex :
    wZeroBase.notifyOnIncrease = true ∧ wZeroBase.lastTotalSupply = some 0 ∧
      (0 : Int) < 1 ∧ (1 : Int) * 100 > 0 * 110 ∧
      evaluateTriggers wZeroBase 1 = [] := by
  decide

/-- Claim C1 (amended): for previous set and current > previous, the increase
reason fires iff `notifyOnIncrease` is true, the previous supply is positive,
and `current*100 > previous*110`. -/
theorem increase_trigger_iff (a : AssetWatcher) (prev current : Int)
    (hl : a.lastTotalSupply = some prev) (hc : prev < current) :
    TriggerReason.increase prev current ∈ evaluateTriggers a current ↔
      a.notifyOnIncrease = true ∧ 0 < prev ∧ current * 100 > prev * 110 := by
  simp only [evaluateTriggers, List.mem_append]
  constructor
  · rintro (hd | htg)
    · simp only [directionalReasons, hl] at hd
      rw [if_pos hc] at hd
      split_ifs at hd with hcond
      · rw [Bool.and_eq_true] at hcond
        rcases hcond with ⟨hni, hinc⟩
        simp only [increasedByMoreThanOnePercent] at hinc
        split_ifs at hinc with hp
        have hinc2 : current * 100 > prev * 110 := by simpa using hinc
        exact ⟨hni, by omega, hinc2⟩
      · simp at hd
    · have := mem_targetReasons_isTarget a current _ htg
      simp [TriggerReason.isTarget] at this
  · rintro ⟨hni, hp, hlt⟩
    left
    simp only [directionalReasons, hl]
    rw [if_pos hc]
    have hcond : (a.notifyOnIncrease && increasedByMoreThanOnePercent (some prev) current)
        = true := by
      rw [Bool.and_eq_true]
      refine ⟨hni, ?_⟩
      simp only [increasedByMoreThanOnePercent]
      rw [if_neg (by omega)]
      simpa using hlt
    rw [if_pos hcond]
    simp

/-- Claim C1 witness: baseline 500, new supply 600, increase flag on. -/
theorem increase_trigger_iff_witness :
    wTracking.lastTotalSupply = some 500 ∧ (500 : Int) < 600 ∧
      (TriggerReason.increase 500 600 ∈ evaluateTriggers wTracking 600 ↔
        wTracking.notifyOnIncrease = true ∧ (0 : Int) < 500 ∧
          (600 : Int) * 100 > 500 * 110) :=
  ⟨rfl, by decide, increase_trigger_iff wTracking 500 600 rfl (by decide)⟩

/-- Claim C2: the target-crossing reason fires exactly when
`previous < target ≤ current`; over observations `[90, 95, 105, 110]` with
target 100 exactly one dispatched event carries a target-crossing reason,
attached to the 95 → 105 transition. -/
theorem target_crossing_trigger :
    (∀ (a : AssetWatcher) (prev target current : Int),
        a.lastTotalSupply = some prev → a.targetTotalSupply = some target →
        (TriggerReason.targetReached target ∈ evaluateTriggers a current ↔
          prev < target ∧ target ≤ current)) ∧
      ((runPolls wCross 18 [] [90, 95, 105, 110]).2.filter
        (fun e => e.triggerReasons.any TriggerReason.isTarget)).map
        (fun e => (e.oldTotalSupply, e.newTotalSupply)) = [(95, 105)] := by
  constructor
  · intro a prev target current hl ht
    constructor
    · intro hmem
      simp only [evaluateTriggers, List.mem_append] at hmem
      rcases hmem with hd | htg
      · have := mem_directionalReasons_isDirectional a current _ hd
        simp [TriggerReason.isDirectional] at this
      · rw [targetReasons_some_eq a current target prev ht hl] at htg
        split_ifs at htg with hcond
        · exact hcond
        · simp at htg
    · intro hcond
      simp only [evaluateTriggers, List.mem_append]
      right
      rw [targetReasons_some_eq a current target prev ht hl, if_pos hcond]
      simp
  · decide

/-- Claim C2 witness: baseline 500, target 1000, new supply 1200. -/
theorem target_crossing_trigger_witness :
    TriggerReason.targetReached 1000 ∈ evaluateTriggers wTracking 1200 ↔
      (500 : Int) < 1000 ∧ (1000 : Int) ≤ 1200 :=
  target_crossing_trigger.1 wTracking 500 1000 1200 rfl rfl

/-- Claim C9: for previous set and current < previous, the decrease reason
fires iff `notifyOnDecrease` is true — no magnitude threshold. -/
theorem decrease_trigger_iff (a : AssetWatcher) (prev current : Int)
    (hl : a.lastTotalSupply = some prev) (hc : current < prev) :
    TriggerReason.decrease prev current ∈ evaluateTriggers a current ↔
      a.notifyOnDecrease = true := by
  simp only [evaluateTriggers, List.mem_append]
  constructor
  · rintro (hd | htg)
    · simp only [directionalReasons, hl] at hd
      rw [if_neg (by omega), if_pos hc] at hd
      split_ifs at hd with hcond
      · exact hcond
      · simp at hd
    · have := mem_targetReasons_isTarget a current _ htg
      simp [TriggerReason.isTarget] at this
  · intro hnd
    left
    simp only [directionalReasons, hl]
    rw [if_neg (by omega), if_pos hc, if_pos hnd]
    simp

/-- Claim C9 witness: baseline 500, new supply 400, decrease flag on. -/
theorem decrease_trigger_iff_witness :
    TriggerReason.decrease 500 400 ∈ evaluateTriggers wTracking 400 ↔
      wTracking.notifyOnDecrease = true :=
  decrease_trigger_iff wTracking 500 400 rfl (by decide)

/-- Claim C10: whenever the evaluator output contains both a directional
reason and a target-crossing reason, the list is exactly the directional
reason followed by the target reason. -/
theorem directional_precedes_target (a : AssetWatcher) (current : Int)
    (r t : TriggerReason) (hr : r.isDirectional = true) (ht : t.isTarget = true)
    (hrm : r ∈ evaluateTriggers a current) (htm : t ∈ evaluateTriggers a current) :
    evaluateTriggers a current = [r, t] := by
  simp only [evaluateTriggers, List.mem_append] at hrm htm
  have hrd : r ∈ directionalReasons a current := by
    rcases hrm with h | h
    · exact h
    · have := mem_targetReasons_isTarget a current r h
      cases r <;> simp_all [TriggerReason.isDirectional, TriggerReason.isTarget]
  have htt : t ∈ targetReasons a current := by
    rcases htm with h | h
    · have := mem_directionalReasons_isDirectional a current t h
      cases t <;> simp_all [TriggerReason.isDirectional, TriggerReason.isTarget]
    · exact h
  rcases directionalReasons_nil_or_singleton a current with hnil | ⟨x, hx⟩
  · rw [hnil] at hrd; simp at hrd
  · rcases targetReasons_nil_or_singleton a current with hnil2 | ⟨y, hy⟩
    · rw [hnil2] at htt; simp at htt
    · rw [hx] at hrd
      rw [hy] at htt
      simp only [List.mem_singleton] at hrd htt
      subst hrd
      subst htt
      simp [evaluateTriggers, hx, hy]

/-- Claim C10 witness: baseline 500, target 1000, new supply 1200 fires both
the increase and the target-crossing reason, in that order. -/
theorem directional_precedes_target_witness :
    evaluateTriggers wTracking 1200 =
      [TriggerReason.increase 500 1200, TriggerReason.targetReached 1000] :=
  directional_precedes_target wTracking 1200 _ _ (by decide) (by decide)
    (by decide) (by decide)

/-- Claim C3: a successful poll on an uninitialized watcher records the
fetched supply as baseline, errors nothing, evaluates no trigger and
dispatches nothing. -/
theorem first_observation_baseline_only (a : AssetWatcher) (d : Nat) (s : Int)
    (notifiers : List (SupplyChangeEvent → Bool)) (hl : a.lastTotalSupply = none) :
    (check a (some d) (some s) notifiers).errored = false ∧
      (check a (some d) (some s) notifiers).watcher.lastTotalSupply = some s ∧
      (check a (some d) (some s) notifiers).event = none ∧
      (check a (some d) (some s) notifiers).deliveries = [] := by
  unfold check checkSupplyPhase
  by_cases hd : a.decimalsLoaded <;> simp [hd, hl]

/-- Claim C3 witness: the fresh watcher on its first observation. -/
theorem first_observation_baseline_only_witness :
    (check wFresh (some 18) (some 1000) []).errored = false ∧
      (check wFresh (some 18) (some 1000) []).watcher.lastTotalSupply = some 1000 ∧
      (check wFresh (some 18) (some 1000) []).event = none ∧
      (check wFresh (some 18) (some 1000) []).deliveries = [] :=
  first_observation_baseline_only wFresh 18 1000 [] rfl

/-- Claim C5: a poll whose fetched supply equals the baseline errors nothing,
dispatches nothing and leaves the baseline unchanged. -/
theorem equal_supply_noop (a : AssetWatcher) (d : Nat) (last : Int)
    (notifiers : List (SupplyChangeEvent → Bool)) (hl : a.lastTotalSupply = some last) :
    (check a (some d) (some last) notifiers).errored = false ∧
      (check a (some d) (some last) notifiers).event = none ∧
      (check a (some d) (some last) notifiers).deliveries = [] ∧
      (check a (some d) (some last) notifiers).watcher.lastTotalSupply = some last := by
  unfold check checkSupplyPhase
  by_cases hd : a.decimalsLoaded <;> simp [hd, hl]

/-- Claim C5 witness: the tracking watcher re-observing its baseline 500. -/
theorem equal_supply_noop_witness :
    (check wTracking (some 18) (some 500) [okNotifier]).errored = false ∧
      (check wTracking (some 18) (some 500) [okNotifier]).event = none ∧
      (check wTracking (some 18) (some 500) [okNotifier]).deliveries = [] ∧
      (check wTracking (some 18) (some 500) [okNotifier]).watcher.lastTotalSupply
        = some 500 :=
  equal_supply_noop wTracking 18 500 [okNotifier] rfl

theorem checkSupplyPhase_dispatch_of_deliveries_ne_nil (a : AssetWatcher) (dA : Bool)
    (sres : Option Int) (notifiers : List (SupplyChangeEvent → Bool))
    (h : (checkSupplyPhase a dA sres notifiers).deliveries ≠ []) :
    (checkSupplyPhase a dA sres notifiers).errored = false ∧
      (∃ e, (checkSupplyPhase a dA sres notifiers).event = some e ∧
        (checkSupplyPhase a dA sres notifiers).deliveries = notifyAll notifiers e) ∧
      (∃ s, sres = some s ∧
        (checkSupplyPhase a dA sres notifiers).watcher.lastTotalSupply = some s) := by
  rcases sres with _ | s
  · simp [checkSupplyPhase] at h
  · rcases hl : a.lastTotalSupply with _ | last
    · simp [checkSupplyPhase, hl] at h
    · simp only [checkSupplyPhase, hl] at h ⊢
      split_ifs at h ⊢ <;> simp_all

theorem checkSupplyPhase_preserves_decimals (a : AssetWatcher) (dA : Bool)
    (sres : Option Int) (notifiers : List (SupplyChangeEvent → Bool)) :
    (checkSupplyPhase a dA sres notifiers).watcher.decimalsLoaded = a.decimalsLoaded ∧
      (checkSupplyPhase a dA sres notifiers).watcher.decimals = a.decimals ∧
      (checkSupplyPhase a dA sres notifiers).decimalsFetchAttempted = dA := by
  rcases sres with _ | s
  · simp [checkSupplyPhase]
  · rcases hl : a.lastTotalSupply with _ | last
    · simp [checkSupplyPhase, hl]
    · simp only [checkSupplyPhase, hl]
      split_ifs <;> simp

/-- Claim C4: whenever some notifier delivery fails on a poll, every
configured notifier was still attempted in order on the dispatched event,
the poll returns no error, and the baseline advances to the fetched
supply. -/
theorem notifier_failure_isolated (a : AssetWatcher) (dres : Option Nat)
    (sres : Option Int) (notifiers : List (SupplyChangeEvent → Bool))
    (hfail : false ∈ (check a dres sres notifiers).deliveries) :
    (check a dres sres notifiers).errored = false ∧
      (∃ e, (check a dres sres notifiers).event = some e ∧
        (check a dres sres notifiers).deliveries = notifyAll notifiers e) ∧
      (∃ s, sres = some s ∧
        (check a dres sres notifiers).watcher.lastTotalSupply = some s) := by
  have hne : (check a dres sres notifiers).deliveries ≠ [] :=
    List.ne_nil_of_mem hfail
  unfold check at hne ⊢
  by_cases hd : a.decimalsLoaded <;> simp only [hd, if_true, if_false] at hne ⊢
  · exact checkSupplyPhase_dispatch_of_deliveries_ne_nil a false sres notifiers hne
  · rcases dres with _ | d
    · simp at hne
    · exact checkSupplyPhase_dispatch_of_deliveries_ne_nil _ true sres notifiers hne

/-- Claim C4 witness: a decrease from 500 to 400 with a failing and a
succeeding notifier. -/
theorem notifier_failure_isolated_witness :
    (check wTracking (some 18) (some 400) [failingNotifier, okNotifier]).errored = false ∧
      (∃ e, (check wTracking (some 18) (some 400)
          [failingNotifier, okNotifier]).event = some e ∧
        (check wTracking (some 18) (some 400)
          [failingNotifier, okNotifier]).deliveries
          = notifyAll [failingNotifier, okNotifier] e) ∧
      (∃ s, (some 400 : Option Int) = some s ∧
        (check wTracking (some 18) (some 400)
          [failingNotifier, okNotifier]).watcher.lastTotalSupply = some s) :=
  notifier_failure_isolated wTracking (some 18) (some 400)
    [failingNotifier, okNotifier] (by decide)

/-- Claim C6: a poll with decimals not yet loaded and a failing decimals
fetch errors before any supply fetch with the watcher unchanged; a
successful decimals fetch caches the value; once loaded, decimals are never
fetched again and the cached value never changes. -/
theorem decimals_fetch_lifecycle (a : AssetWatcher) (sres : Option Int)
    (notifiers : List (SupplyChangeEvent → Bool)) :
    (a.decimalsLoaded = false →
        (check a none sres notifiers).errored = true ∧
        (check a none sres notifiers).supplyFetchAttempted = false ∧
        (check a none sres notifiers).watcher = a) ∧
      (∀ d : Nat, a.decimalsLoaded = false →
        (check a (some d) sres notifiers).decimalsFetchAttempted = true ∧
        (check a (some d) sres notifiers).watcher.decimalsLoaded = true ∧
        (check a (some d) sres notifiers).watcher.decimals = d) ∧
      (∀ dres : Option Nat, a.decimalsLoaded = true →
        (check a dres sres notifiers).decimalsFetchAttempted = false ∧
        (check a dres sres notifiers).watcher.decimalsLoaded = true ∧
        (check a dres sres notifiers).watcher.decimals = a.decimals) := by
  refine ⟨fun h => ?_, fun d h => ?_, fun dres h => ?_⟩
  · simp [check, h]
  · have hp := checkSupplyPhase_preserves_decimals
      { a with decimals := d, decimalsLoaded := true } true sres notifiers
    have hcheck : check a (some d) sres notifiers
        = checkSupplyPhase { a with decimals := d, decimalsLoaded := true } true
            sres notifiers := by
      simp [check, h]
    rw [hcheck]
    simp only [] at hp
    exact ⟨hp.2.2, hp.1, hp.2.1⟩
  · have hp := checkSupplyPhase_preserves_decimals a false sres notifiers
    have hcheck : check a dres sres notifiers
        = checkSupplyPhase a false sres notifiers := by
      simp [check, h]
    rw [hcheck]
    exact ⟨hp.2.2, hp.1.trans h, hp.2.1⟩

/-- Claim C6 witness: the fresh watcher with a failing, then a succeeding,
decimals fetch, then an already-loaded watcher. -/
theorem decimals_fetch_lifecycle_witness :
    ((check wFresh none (some 7) []).errored = true ∧
        (check wFresh none (some 7) []).supplyFetchAttempted = false ∧
        (check wFresh none (some 7) []).watcher = wFresh) ∧
      ((check wFresh (some 18) (some 7) []).decimalsFetchAttempted = true ∧
        (check wFresh (some 18) (some 7) []).watcher.decimalsLoaded = true ∧
        (check wFresh (some 18) (some 7) []).watcher.decimals = 18) ∧
      ((check wTracking none (some 7) []).decimalsFetchAttempted = false ∧
        (check wTracking none (some 7) []).watcher.decimalsLoaded = true ∧
        (check wTracking none (some 7) []).watcher.decimals = wTracking.decimals) :=
  ⟨(decimals_fetch_lifecycle wFresh (some 7) []).1 rfl,
    (decimals_fetch_lifecycle wFresh (some 7) []).2.1 18 rfl,
    (decimals_fetch_lifecycle wTracking (some 7) []).2.2 none rfl⟩

theorem buildWatcher_error_of_invalid (pd : String → Option Int) (dp : Int)
    (c : AssetConfig) (h : invalidAssetEntry pd c) :
    ∃ e, buildWatcher pd dp c = Except.error e := by
  unfold buildWatcher
  by_cases hA : c.address = ""
  · rw [if_pos hA]; exact ⟨_, rfl⟩
  · rw [if_neg hA]
    by_cases hB : isHexAddress c.address
    · rw [if_neg (by simp [hB])]
      rcases hparse : parseBigInt c.targetCapTokens with e | tgt
    -- error: construction already fails on the target
      · exact ⟨_, rfl⟩
      · dsimp only
        by_cases hP : c.pollInterval = ""
        · exfalso
          rcases h with h | h | ⟨hne, _⟩ | ⟨hT, hnone⟩
          · exact hA h
          · rw [hB] at h; simp at h
          · exact hne hP
          · rw [parseBigInt, if_neg hT, hnone] at hparse
            exact Except.noConfusion hparse
        · rw [if_neg hP]
          rcases hpd : pd c.pollInterval with _ | v
          · exact ⟨_, rfl⟩
          · dsimp only
            by_cases hv : v ≤ 0
            · rw [if_pos hv]; exact ⟨_, rfl⟩
            · exfalso
              rcases h with h | h | ⟨hne, hbad⟩ | ⟨hT, hnone⟩
              · exact hA h
              · rw [hB] at h; simp at h
              · rcases hbad with hnonepd | ⟨w, hw, hwle⟩
                · rw [hpd] at hnonepd; exact Option.noConfusion hnonepd
                · rw [hpd] at hw
                  exact hv (Option.some.inj hw ▸ hwle)
              · rw [parseBigInt, if_neg hT, hnone] at hparse
                exact Except.noConfusion hparse
    · rw [if_pos (by simp [Bool.eq_false_iff.mpr hB])]
      exact ⟨_, rfl⟩

theorem buildWatchers_error_of_invalid (pd : String → Option Int) (dp : Int) :
    ∀ assets : List AssetConfig, (∃ c ∈ assets, invalidAssetEntry pd c) →
      ∃ e, buildWatchers pd dp assets = Except.error e := by
  intro assets
  induction assets with
  | nil =>
    rintro ⟨c, hc, -⟩
    simp at hc
  | cons c0 rest ih =>
    rintro ⟨c, hc, hbad⟩
    rcases List.mem_cons.mp hc with rfl | hmem
    · obtain ⟨e, he⟩ := buildWatcher_error_of_invalid pd dp c hbad
      exact ⟨e, by simp [buildWatchers, he]⟩
    · rcases hbw : buildWatcher pd dp c0 with e0 | w0
      · exact ⟨e0, by simp [buildWatchers, hbw]⟩
      · obtain ⟨e, he⟩ := ih ⟨c, hmem, hbad⟩
        exact ⟨e, by simp [buildWatchers, hbw, he]⟩

/-- Claim C7: any asset entry with an empty address, invalid address syntax,
unparseable or non-positive poll interval, or malformed target integer makes
`NewService` return an error, so no watcher list is constructed at all. -/
theorem construction_rejects_invalid_assets (pd : String → Option Int) (dp : Int)
    (assets : List AssetConfig) (h : ∃ c ∈ assets, invalidAssetEntry pd c) :
    ∃ e, newService pd assets dp = Except.error e := by
  unfold newService
  by_cases hdp : dp ≤ 0
  · rw [if_pos hdp]; exact ⟨_, rfl⟩
  · rw [if_neg hdp]
    exact buildWatchers_error_of_invalid pd dp assets h

/-- Claim C7 witness: a single asset with an empty address is rejected. -/
theorem construction_rejects_invalid_assets_witness :
    ∃ e, newService pdNone [cfgEmptyAddr] 1 = Except.error e :=
  construction_rejects_invalid_assets pdNone 1 [cfgEmptyAddr]
    ⟨cfgEmptyAddr, by simp, Or.inl rfl⟩

theorem parseBigInt_ok_some (v : String) (t : Int)
    (h : parseBigInt v = Except.ok (some t)) :
    v ≠ "" ∧ setStringBase10 v = some t := by
  unfold parseBigInt at h
  by_cases hT : v = ""
  · rw [if_pos hT] at h
    simp at h
  · rw [if_neg hT] at h
    rcases hs : setStringBase10 v with _ | w <;> rw [hs] at h
    · simp at h
    · simp at h
      exact ⟨hT, congrArg some h⟩

theorem buildWatcher_ok_target (pd : String → Option Int) (dp : Int) (c : AssetConfig)
    (w : AssetWatcher) (hok : buildWatcher pd dp c = Except.ok w) (t : Int)
    (ht : w.targetTotalSupply = some t) :
    c.targetCapTokens ≠ "" ∧ setStringBase10 c.targetCapTokens = some t := by
  unfold buildWatcher at hok
  by_cases hA : c.address = ""
  · rw [if_pos hA] at hok; simp at hok
  · rw [if_neg hA] at hok
    by_cases hB : isHexAddress c.address
    · rw [if_neg (by simp [hB])] at hok
      rcases hparse : parseBigInt c.targetCapTokens with e | tgt <;> rw [hparse] at hok
      · simp at hok
      · dsimp only at hok
        by_cases hP : c.pollInterval = ""
        · rw [if_pos hP] at hok
          simp only [Except.ok.injEq] at hok
          rw [← hok] at ht
          simp at ht
          exact parseBigInt_ok_some _ t (by rw [hparse, ht])
        · rw [if_neg hP] at hok
          rcases hpd : pd c.pollInterval with _ | v <;> rw [hpd] at hok
          · simp at hok
          · dsimp only at hok
            by_cases hv : v ≤ 0
            · rw [if_pos hv] at hok; simp at hok
            · rw [if_neg hv] at hok
              simp only [Except.ok.injEq] at hok
              rw [← hok] at ht
              simp at ht
              exact parseBigInt_ok_some _ t (by rw [hparse, ht])
    · rw [if_pos (by simp [Bool.eq_false_iff.mpr hB])] at hok
      simp at hok

theorem buildWatchers_ok_mem (pd : String → Option Int) (dp : Int) :
    ∀ (assets : List AssetConfig) (ws : List AssetWatcher),
      buildWatchers pd dp assets = Except.ok ws →
      ∀ w ∈ ws, ∃ c ∈ assets, buildWatcher pd dp c = Except.ok w := by
  intro assets
  induction assets with
  | nil =>
    intro ws h w hw
    simp [buildWatchers] at h
    subst h
    simp at hw
  | cons c0 rest ih =>
    intro ws h w hw
    unfold buildWatchers at h
    rcases hbw : buildWatcher pd dp c0 with e0 | w0 <;> rw [hbw] at h
    · simp at h
    · rcases hbr : buildWatchers pd dp rest with e1 | ws1 <;> rw [hbr] at h
      · simp at h
      · simp only [Except.ok.injEq] at h
        rw [← h] at hw
        rcases List.mem_cons.mp hw with rfl | hmem
        · exact ⟨c0, List.mem_cons_self c0 rest, hbw⟩
        · obtain ⟨c, hc, hcw⟩ := ih ws1 hbr w hmem
          exact ⟨c, List.mem_cons_of_mem c0 hc, hcw⟩

/-- Claim C8 counterexample: the target string `-5` passes construction and
yields a watcher whose target is the negative integer `-5`. -/
theorem negative_target_accepted_cex :
    newService pdNone [cfgNegTarget] 1 = Except.ok [wNegTarget] ∧
      wNegTarget.targetTotalSupply = some (-5) ∧ (-5 : Int) < 0 :=
  ⟨by rfl, by decide, by decide⟩

/-- Claim C8 (amended): each constructed watcher's target, when set, is
exactly the integer denoted by that asset's decimal target string —
including negative integers, which pass construction unchecked. -/
theorem constructed_target_matches_config (pd : String → Option Int) (dp : Int)
    (assets : List AssetConfig) (ws : List AssetWatcher)
    (hok : newService pd assets dp = Except.ok ws) :
    ∀ w ∈ ws, ∀ t, w.targetTotalSupply = some t →
      ∃ c ∈ assets, c.targetCapTokens ≠ "" ∧
        setStringBase10 c.targetCapTokens = some t := by
  intro w hw t ht
  unfold newService at hok
  by_cases hdp : dp ≤ 0
  · rw [if_pos hdp] at hok; simp at hok
  · rw [if_neg hdp] at hok
    obtain ⟨c, hc, hcw⟩ := buildWatchers_ok_mem pd dp assets ws hok w hw
    obtain ⟨hne, hs⟩ := buildWatcher_ok_target pd dp c w hcw t ht
    exact ⟨c, hc, hne, hs⟩

/-- Claim C8 witness: applied to the accepted configuration with target
string `-5`. -/
theorem constructed_target_matches_config_witness :
    ∃ c ∈ [cfgNegTarget], c.targetCapTokens ≠ "" ∧
      setStringBase10 c.targetCapTokens = some (-5) :=
  constructed_target_matches_config pdNone 1 [cfgNegTarget] [wNegTarget]
    (by rfl) wNegTarget (by simp) (-5) (by rfl)
